import Mathlib

/-!
Shallow embedding of `src/mongobject.py` (class `Mongobject`), a facade over
a MongoDB driver.  Pure Python control flow is translated directly; calls
into the driver are modelled by passing each driver result as an explicit
oracle argument, and the connected instance is modelled as the name-level
mapping from database names to lists of collection names that the source
code itself assumes (it tests key membership with `.keys()` at lines 92 and
101 and assigns `self.instance[db_name] = ...` at line 185; the spec, in
section 4.1, directs treating these existence checks as name membership
rather than replicating driver internals).  Reading a Python attribute that
was never assigned raises AttributeError, so fallible steps live in
`Except PyErr`.
-/

namespace Mongobject

/-- Python exceptions the embedded control flow can raise. -/
inductive PyErr where
  | attributeError
  | typeError
  | keyError
  | indexError
deriving DecidableEq

/-- Values stored in documents (enough structure for identifiers and fields). -/
inductive PVal where
  | vint : Int → PVal
  | vstr : String → PVal
deriving DecidableEq

/-- A Python dict used as a MongoDB document: an ordered association list
with unique string keys. -/
abbrev Doc := List (String × PVal)

/-- Python truthiness of an optional string (None and the empty string are falsy). -/
def pyTruthyStr : Option String → Bool
  | none => false
  | some s => decide (s ≠ "")

/-- Python truthiness of an optional integer (None and 0 are falsy). -/
def pyTruthyInt : Option Int → Bool
  | none => false
  | some n => decide (n ≠ 0)

/-- `str.startswith` on Python strings, computed on the character lists. -/
def strStarts (s pre : String) : Bool :=
  pre.data.isPrefixOf s.data

/-- First positional argument handed to the driver client constructor:
either a URI passed through unchanged, a plain hostname, or the wrapped
form built at line 82 of the source. -/
inductive HostArg where
  | passedUri (u : String)
  | hostname (h : String)
  | wrappedHost (h : String)
deriving DecidableEq

/-- The concrete string the `wrappedHost` case of line 82 denotes. -/
def renderHostArg : HostArg → String
  | .passedUri u => u
  | .hostname h => h
  | .wrappedHost h => "mongodb://" ++ h ++ "/?ssl=true"

/-- Arguments with which the driver client `MongoClient` is invoked. -/
structure ClientSpec where
  hostArg : Option HostArg
  portArg : Option Int
  sslKwarg : Bool
deriving DecidableEq

/-- Line 77 of the source: `uri is not None and uri.startswith(..)` with the
literal prefix `mongodb://`. -/
def uriPrefixed : Option String → Bool
  | none => false
  | some u => strStarts u "mongodb://"

/-- `_connect_database` (lines 67-84), called by `__init__` and by
`set_instance`: dispatch on the connection parameters and build the driver
client call.  The third branch concatenates `mongodb://` with the host,
which raises TypeError when the host is None (string plus None). -/
def connect_database (uri host : Option String) (port : Option Int) :
    Except PyErr ClientSpec :=
  if uriPrefixed uri then
    Except.ok ⟨uri.map HostArg.passedUri, none, true⟩
  else if pyTruthyStr host && pyTruthyInt port then
    Except.ok ⟨host.map HostArg.hostname, port, true⟩
  else if pyTruthyStr host || pyTruthyStr uri then
    match host with
    | some hst => Except.ok ⟨some (HostArg.wrappedHost hst), none, false⟩
    | none => Except.error PyErr.typeError
  else
    Except.ok ⟨none, none, true⟩

/-- Whether a built client call requests an encrypted transport: either the
ssl keyword argument is set, or the first argument is the wrapped-host URI,
whose rendering (see `renderHostArg`) carries the query `?ssl=true`. -/
def requestsEncryption (c : ClientSpec) : Bool :=
  c.sslKwarg ||
    (match c.hostArg with
     | some (HostArg.wrappedHost _) => true
     | _ => false)

/-- Encryption request read off a possibly-failed connection attempt; a
raised error builds no client, so nothing unencrypted was requested. -/
def encryptionOfResult : Except PyErr ClientSpec → Bool
  | Except.ok c => requestsEncryption c
  | Except.error _ => true

/-- In-memory facade state: the connected instance (database name mapped to
its collection names) plus the two selection attributes.  `none` means the
attribute was never assigned: the constructor and the setters skip falsy
values, and reading an unassigned attribute raises AttributeError. -/
structure MState where
  inst : List (String × List String)
  database : Option String
  collection : Option String
deriving DecidableEq

/-- Reading a possibly-unassigned Python attribute. -/
def pyAttr {α : Type} : Option α → Except PyErr α
  | some a => Except.ok a
  | none => Except.error PyErr.attributeError

/-- `_check_database` (lines 86-92): the selected database name is a key of
the instance. -/
def check_database (st : MState) : Except PyErr Bool := do
  let db ← pyAttr st.database
  pure (st.inst.any (fun p => decide (p.1 = db)))

/-- Collection names of a database present in the instance. -/
def instCollections (st : MState) (db : String) : List String :=
  ((st.inst.find? (fun p => decide (p.1 = db))).map Prod.snd).getD []

/-- `_check_collection` (lines 94-101); the `and` short-circuits, so the
collection attribute is only read when the database check succeeded. -/
def check_collection (st : MState) : Except PyErr Bool := do
  let b ← check_database st
  if b then do
    let db ← pyAttr st.database
    let coll ← pyAttr st.collection
    pure ((instCollections st db).any (fun c => decide (c = coll)))
  else
    pure false

/-- `set_database` (lines 126-133): a no-op on falsy input. -/
def set_database (st : MState) (database : Option String) : MState :=
  if pyTruthyStr database then { st with database := database } else st

/-- `set_collection` (lines 143-150): a no-op on falsy input. -/
def set_collection (st : MState) (collection : Option String) : MState :=
  if pyTruthyStr collection then { st with collection := collection } else st

/-- `drop_database` (lines 188-198): drop the selected database from the
instance, then call the falsy-guarded setters with None. -/
def drop_database (st : MState) : Except PyErr MState := do
  let b ← check_database st
  if b then do
    let db ← pyAttr st.database
    let st1 : MState := { st with inst := st.inst.filter (fun p => decide (p.1 ≠ db)) }
    pure (set_collection (set_database st1 none) none)
  else
    pure st

/-- `drop_collection` (lines 213-222): drop the selected collection from the
selected database, then call the falsy-guarded setter with None. -/
def drop_collection (st : MState) : Except PyErr MState := do
  let b ← check_collection st
  if b then do
    let db ← pyAttr st.database
    let coll ← pyAttr st.collection
    let newInst := st.inst.map
      (fun p => if p.1 = db then (p.1, p.2.filter (fun c => decide (c ≠ coll))) else p)
    let st1 : MState := { st with inst := newInst }
    pure (set_collection st1 none)
  else
    pure st

/-- Driver result of `insert_one`: `inserted_id` is None or a generated
identifier. -/
structure InsertOneResult where
  inserted_id : Option PVal
deriving DecidableEq

/-- Driver result of `insert_many`. -/
structure InsertManyResult where
  inserted_ids : List PVal
deriving DecidableEq

/-- Driver result of `replace_one`, `update_one` and `update_many`. -/
structure WriteResult where
  matched_count : Nat
  modified_count : Nat
deriving DecidableEq

/-- Driver result of `delete_one` and `delete_many`. -/
structure DeleteResult where
  deleted_count : Nat
deriving DecidableEq

/-- The `data` argument of `insert`: a single dict or a list of dicts. -/
inductive PyData where
  | dict (d : Doc)
  | list (l : List Doc)
deriving DecidableEq

/-- Python truthiness of the `data` argument. -/
def pyTruthyData : PyData → Bool
  | .dict d => !d.isEmpty
  | .list l => !l.isEmpty

/-- Driver calls issued by `insert`, recorded so theorems can state that no
driver call was attempted. -/
inductive DriverCall where
  | insertOne (d : Doc)
  | insertMany (ds : List Doc)
deriving DecidableEq

/-- `insert` (lines 224-246).  `data and self._check_collection()` evaluates
`data` first, so an empty dict or list returns False before any attribute
is read.  The branch order of the source (list of length above one, then
dict, then the remaining one-element-list case reading `data[0]`) is kept;
driver outcomes are supplied by the `oneRes` and `manyRes` oracles, and the
issued calls are returned alongside the boolean.  The IndexError arm models
`data[0]` on an empty list and is unreachable, an empty list being falsy. -/
def insert (st : MState) (data : PyData) (oneRes : InsertOneResult)
    (manyRes : InsertManyResult) : Except PyErr (Bool × List DriverCall) :=
  if pyTruthyData data then do
    let c ← check_collection st
    if c then
      match data with
      | .list l =>
        if 1 < l.length then
          pure (decide (manyRes.inserted_ids.length = l.length), [DriverCall.insertMany l])
        else
          match l with
          | d :: _ => pure (oneRes.inserted_id.isSome, [DriverCall.insertOne d])
          | [] => Except.error PyErr.indexError
      | .dict d => pure (oneRes.inserted_id.isSome, [DriverCall.insertOne d])
    else
      pure (false, [])
  else
    pure (false, [])

/-- The batch loop of `replace` (lines 263-270), consuming a stream of
`replace_one` results: True at the first result whose matched count equals
its modified count, False at the first remaining result with modified count
zero, and `none` when the supplied stream ends while the loop would still
be running. -/
def replaceLoop : List WriteResult → Option Bool
  | [] => none
  | r :: rest =>
    if r.matched_count = r.modified_count then some true
    else if r.modified_count = 0 then some false
    else replaceLoop rest

/-- `replace` (lines 248-272): `some b` is the Python return value b, while
`none` means the batch loop consumed the whole supplied result stream
without returning. -/
def replace (st : MState) (only_one : Bool) (oneRes : WriteResult)
    (loopRes : List WriteResult) : Except PyErr (Option Bool) := do
  let c ← check_collection st
  if c then
    if only_one then
      pure (some (decide (oneRes.modified_count = 1)))
    else
      pure (replaceLoop loopRes)
  else
    pure (some false)

/-- `update` (lines 274-292). -/
def update (st : MState) (only_one : Bool) (oneRes manyRes : WriteResult) :
    Except PyErr Bool := do
  let c ← check_collection st
  if c then
    if only_one then
      pure (decide (oneRes.modified_count = 1))
    else
      pure (decide (manyRes.modified_count = manyRes.matched_count))
  else
    pure false

/-- `delete` (lines 294-310). -/
def delete (st : MState) (only_one : Bool) (oneRes manyRes : DeleteResult) :
    Except PyErr Bool := do
  let c ← check_collection st
  if c then
    pure (decide (0 < (if only_one then oneRes else manyRes).deleted_count))
  else
    pure false

/-- `count` (lines 354-366). -/
def count (st : MState) (driverCount : Nat) : Except PyErr Int := do
  let c ← check_collection st
  if c then pure (Int.ofNat driverCount) else pure (-1)

/-- `distinct` (lines 368-379). -/
def distinct (st : MState) (driverVals : List PVal) : Except PyErr (List PVal) := do
  let c ← check_collection st
  if c then pure driverVals else pure []

/-- Names bound in the class body of `Mongobject`: its methods, and nothing
else.  The five find option constants FIND, FIND_ONE, FIND_ONE_AND_DELETE,
FIND_ONE_AND_REPLACE and FIND_ONE_AND_UPDATE are assigned at lines 32-36 as
local variables inside `__init__`, so they are absent from this list. -/
def classBodyNames : List String :=
  ["__init__", "__del__", "_server_info", "get_info", "_connect_database",
   "_check_database", "_check_collection", "set_instance", "get_instance",
   "set_database", "get_database", "set_collection", "get_collection",
   "get_available_databases", "get_available_collections", "create_database",
   "drop_database", "create_collection", "drop_collection", "insert",
   "replace", "update", "delete", "find", "count", "distinct"]

/-- The class attribute lookup `Mongobject.FIND` performed at line 329: were
FIND a class attribute it would be bound to the integer 1 of line 32, but
the name is not in the class body, so the lookup raises AttributeError. -/
def mongobjectFIND : Except PyErr Int :=
  if classBodyNames.any (fun s => decide (s = "FIND")) then Except.ok 1
  else Except.error PyErr.attributeError

/-- `d.get(k)` on a Python dict: None when the key is absent. -/
def dictGet (d : Doc) (k : String) : Option PVal :=
  (d.find? (fun p => decide (p.1 = k))).map Prod.snd

/-- `del d[k]` on a Python dict with the key present. -/
def dictDel (d : Doc) (k : String) : Doc :=
  d.filter (fun p => decide (p.1 ≠ k))

/-- `m[k] = v` on a Python dict keyed by possibly-None values: replace the
binding in place when the key is present, append it otherwise. -/
def dictAssignKey (m : List (Option PVal × Doc)) (k : Option PVal) (v : Doc) :
    List (Option PVal × Doc) :=
  if m.any (fun p => decide (p.1 = k)) then
    m.map (fun p => if p.1 = k then (k, v) else p)
  else
    m ++ [(k, v)]

/-- The result-processing loop of `find` (lines 342-350).  `dic = res` at
line 346 binds an alias of the same dict object, so `del dic[..]` at line
347 removes the identifier key from `res` as well, and the subsequent
`res.get(..)` at line 348 yields None: every processed document is filed
under the key None.  `del` raises KeyError when the document lacks the
identifier key. -/
def processFindLoop : List Doc → List (Option PVal × Doc) →
    Except PyErr (List (Option PVal × Doc))
  | [], acc => Except.ok acc
  | res :: rest, acc =>
    match dictGet res "_id" with
    | some _ =>
      processFindLoop rest
        (dictAssignKey acc (dictGet (dictDel res "_id") "_id") (dictDel res "_id"))
    | none => Except.error PyErr.keyError

/-- The `find_result` accumulation of lines 343-350 over a driver cursor. -/
def processFindResult (result : List Doc) : Except PyErr (List (Option PVal × Doc)) :=
  processFindLoop result []

/-- `find` (lines 312-352).  After a successful collection check, line 329
compares `find_option` with the class attribute FIND; evaluating that
attribute raises (see `mongobjectFIND`), so neither the driver calls, nor
the result processing, nor the empty-dict fall-through of line 340 for an
unknown option is ever reached.  The driver cursor for the plain FIND
branch is supplied as the `result` oracle; the final `pure []` stands for
the remaining mode comparisons (each of which would look up another absent
class attribute) and for line 340, all unreachable. -/
def find (st : MState) (find_option : Int) (result : List Doc) :
    Except PyErr (List (Option PVal × Doc)) := do
  let c ← check_collection st
  if c then do
    let f ← mongobjectFIND
    if find_option = f then
      processFindResult result
    else
      pure []
  else
    pure []

/-- Whether a built client call passes the caller URI through unchanged as
its first argument. -/
def usedPassedUri : Except PyErr ClientSpec → Bool
  | Except.ok c =>
    (match c.hostArg with
     | some (HostArg.passedUri _) => true
     | _ => false)
  | Except.error _ => false

/-- Fixture dataset: two documents with distinct identifiers and one payload
field each. -/
def fixtureDocs : List Doc :=
  [[("_id", PVal.vint 1), ("a", PVal.vint 10)], [("_id", PVal.vint 2), ("b", PVal.vint 20)]]

/-- Binding an ok value in the `Except` monad. -/
theorem exceptOkBind {ε α β : Type} (a : α) (f : α → Except ε β) :
    (Except.ok a >>= f : Except ε β) = f a := rfl

/-- The batch loop of `replace` ignores a prefix of results that neither
converge nor stall. -/
theorem replaceLoop_skip (rs tail : List WriteResult)
    (h : ∀ x ∈ rs, x.matched_count ≠ x.modified_count ∧ x.modified_count ≠ 0) :
    replaceLoop (rs ++ tail) = replaceLoop tail := by
  induction rs with
  | nil => rfl
  | cons r rest ih =>
    have hr := h r (List.mem_cons_self r rest)
    have hrest : ∀ x ∈ rest, x.matched_count ≠ x.modified_count ∧ x.modified_count ≠ 0 :=
      fun x hx => h x (List.mem_cons_of_mem r hx)
    rw [List.cons_append, replaceLoop, if_neg hr.1, if_neg hr.2]
    exact ih hrest

/-- C1: the claim fails on the code.  With no database or collection ever
selected, a data operation does not return its designated failure value:
`_check_database` reads the never-assigned `self.database` attribute, so
`insert` of a non-empty document on an instance that does hold entities
raises AttributeError instead of returning False.  (When both names are
assigned but do not resolve, operations do return their failure values, as
the theorems for C2 and C5 to C10 show on their guarded branches.) -/
theorem claim_c1 (oneRes : InsertOneResult) (manyRes : InsertManyResult) :
    insert ⟨[("d", ["c"])], none, none⟩ (PyData.dict [("a", PVal.vint 1)])
      oneRes manyRes = Except.error PyErr.attributeError := rfl

/-- C2: the claim fails on the code.  After `drop_database` on the selected,
existing database, the database is removed from the instance and a
subsequent `insert` returns false, but the in-memory selections are NOT
cleared, because `set_database(None)` and `set_collection(None)` are no-ops
on falsy input; likewise `drop_collection` removes the collection from the
instance but leaves the collection selection in place. -/
theorem claim_c2 :
    drop_database ⟨[("d", ["c"])], some "d", some "c"⟩
      = Except.ok ⟨[], some "d", some "c"⟩
  ∧ (∀ oneRes manyRes,
      insert ⟨[], some "d", some "c"⟩ (PyData.dict [("a", PVal.vint 1)]) oneRes manyRes
        = Except.ok (false, []))
  ∧ drop_collection ⟨[("d", ["c"])], some "d", some "c"⟩
      = Except.ok ⟨[("d", [])], some "d", some "c"⟩ :=
  ⟨rfl, fun _ _ => rfl, rfl⟩

/-- C3: the claim fails on the code.  A plain-mode `find` over an existing
collection never returns the claimed identifier-keyed mapping: it raises
AttributeError at the `Mongobject.FIND` lookup, and the result-processing
loop on its own files every document under the key None (overwriting
earlier entries), because `del` on the alias `dic` removes the identifier
from the shared dict before `res.get` reads it. -/
theorem claim_c3 :
    find ⟨[("d", ["c"])], some "d", some "c"⟩ 1 fixtureDocs
      = Except.error PyErr.attributeError
  ∧ processFindResult fixtureDocs = Except.ok [(none, [("b", PVal.vint 20)])] :=
  ⟨rfl, rfl⟩

/-- C4: the claim fails on the code.  With a valid selected collection,
`find` with the out-of-range selector 0 does not return the empty mapping:
it raises AttributeError, because the five option constants are local
variables of `__init__` and not class attributes. -/
theorem claim_c4 :
    find ⟨[("d", ["c"])], some "d", some "c"⟩ 0 []
      = Except.error PyErr.attributeError := rfl

/-- C5: with an active database and collection, `replace` and `update` with
only_one true return true exactly when the single-document driver result
reports one modified document, and `update` with only_one false returns
true exactly when the bulk driver result has its modified count equal to
its matched count. -/
theorem claim_c5 (st : MState) (r1 r2 r3 : WriteResult)
    (rs : List WriteResult) (hc : check_collection st = Except.ok true) :
    replace st true r1 rs = Except.ok (some (decide (r1.modified_count = 1)))
  ∧ update st true r2 r3 = Except.ok (decide (r2.modified_count = 1))
  ∧ update st false r2 r3 = Except.ok (decide (r3.modified_count = r3.matched_count)) := by
  refine ⟨?_, ?_, ?_⟩
  · rw [replace.eq_def, hc, exceptOkBind]; rfl
  · rw [update.eq_def, hc, exceptOkBind]; rfl
  · rw [update.eq_def, hc, exceptOkBind]; rfl

/-- Witness for C5 at a concrete active state and concrete driver results. -/
theorem claim_c5_witness :
    replace ⟨[("d", ["c"])], some "d", some "c"⟩ true ⟨1, 1⟩ [] = Except.ok (some true)
  ∧ update ⟨[("d", ["c"])], some "d", some "c"⟩ true ⟨1, 1⟩ ⟨2, 1⟩ = Except.ok true
  ∧ update ⟨[("d", ["c"])], some "d", some "c"⟩ false ⟨1, 1⟩ ⟨2, 1⟩ = Except.ok false :=
  claim_c5 ⟨[("d", ["c"])], some "d", some "c"⟩ ⟨1, 1⟩ ⟨1, 1⟩ ⟨2, 1⟩ [] rfl

/-- C6: with an active database and collection, `insert` of a single
non-empty document returns true exactly when the driver produced an
inserted identifier, and `insert` of a list of at least two documents
returns true exactly when the driver produced as many identifiers as
documents. -/
theorem claim_c6 (st : MState) (d : Doc) (l : List Doc)
    (oneRes : InsertOneResult) (manyRes : InsertManyResult)
    (hc : check_collection st = Except.ok true) (hd : d ≠ []) (hl : 2 ≤ l.length) :
    insert st (PyData.dict d) oneRes manyRes
      = Except.ok (oneRes.inserted_id.isSome, [DriverCall.insertOne d])
  ∧ insert st (PyData.list l) oneRes manyRes
      = Except.ok (decide (manyRes.inserted_ids.length = l.length),
          [DriverCall.insertMany l]) := by
  have ht : pyTruthyData (PyData.dict d) = true := by
    cases d with
    | nil => exact absurd rfl hd
    | cons a t => rfl
  have htl : pyTruthyData (PyData.list l) = true := by
    cases l with
    | nil => simp at hl
    | cons a t => rfl
  have h1 : 1 < l.length := lt_of_lt_of_le one_lt_two hl
  constructor
  · rw [insert.eq_def, ht, if_pos rfl, hc, exceptOkBind]; rfl
  · rw [insert.eq_def, htl, if_pos rfl, hc, exceptOkBind]
    simp only [if_pos h1]
    rfl

/-- Witness for C6 at a concrete active state, a one-field document, a
two-document list and driver results carrying the matching identifiers. -/
theorem claim_c6_witness :
    insert ⟨[("d", ["c"])], some "d", some "c"⟩ (PyData.dict [("a", PVal.vint 1)])
        ⟨some (PVal.vint 7)⟩ ⟨[PVal.vint 1, PVal.vint 2]⟩
      = Except.ok (true, [DriverCall.insertOne [("a", PVal.vint 1)]])
  ∧ insert ⟨[("d", ["c"])], some "d", some "c"⟩
        (PyData.list [[("a", PVal.vint 1)], [("b", PVal.vint 2)]])
        ⟨some (PVal.vint 7)⟩ ⟨[PVal.vint 1, PVal.vint 2]⟩
      = Except.ok (true,
          [DriverCall.insertMany [[("a", PVal.vint 1)], [("b", PVal.vint 2)]]]) :=
  claim_c6 ⟨[("d", ["c"])], some "d", some "c"⟩ [("a", PVal.vint 1)]
    [[("a", PVal.vint 1)], [("b", PVal.vint 2)]]
    ⟨some (PVal.vint 7)⟩ ⟨[PVal.vint 1, PVal.vint 2]⟩ rfl (by decide) (by decide)

/-- C7: with an active database and collection and only_one false, `replace`
returns true at the first driver result whose matched count equals its
modified count, and false at the first result that matches at least one
document but modifies none, regardless of earlier results that made
progress without converging. -/
theorem claim_c7 (st : MState) (oneRes : WriteResult)
    (rs1 : List WriteResult) (r : WriteResult) (rs2 : List WriteResult)
    (hc : check_collection st = Except.ok true)
    (h1 : ∀ x ∈ rs1, x.matched_count ≠ x.modified_count ∧ x.modified_count ≠ 0) :
    (r.matched_count = r.modified_count →
      replace st false oneRes (rs1 ++ r :: rs2) = Except.ok (some true))
  ∧ (1 ≤ r.matched_count → r.modified_count = 0 →
      replace st false oneRes (rs1 ++ r :: rs2) = Except.ok (some false)) := by
  have hloop : replaceLoop (rs1 ++ r :: rs2) = replaceLoop (r :: rs2) :=
    replaceLoop_skip rs1 (r :: rs2) h1
  constructor
  · intro he
    rw [replace.eq_def, hc, exceptOkBind]
    show Except.ok (replaceLoop (rs1 ++ r :: rs2)) = Except.ok (some true)
    rw [hloop, replaceLoop, if_pos he]
  · intro hm hz
    have hne : r.matched_count ≠ r.modified_count := by omega
    rw [replace.eq_def, hc, exceptOkBind]
    show Except.ok (replaceLoop (rs1 ++ r :: rs2)) = Except.ok (some false)
    rw [hloop, replaceLoop, if_neg hne, if_pos hz]

/-- Witness for C7: after one result with five matched and two modified
documents the loop continues; it then returns true on a converging result
and false on a stalled one. -/
theorem claim_c7_witness :
    replace ⟨[("d", ["c"])], some "d", some "c"⟩ false ⟨0, 0⟩ [⟨5, 2⟩, ⟨3, 3⟩]
      = Except.ok (some true)
  ∧ replace ⟨[("d", ["c"])], some "d", some "c"⟩ false ⟨0, 0⟩ [⟨5, 2⟩, ⟨4, 0⟩]
      = Except.ok (some false) :=
  ⟨(claim_c7 ⟨[("d", ["c"])], some "d", some "c"⟩ ⟨0, 0⟩ [⟨5, 2⟩] ⟨3, 3⟩ []
      rfl (by decide)).1 rfl,
   (claim_c7 ⟨[("d", ["c"])], some "d", some "c"⟩ ⟨0, 0⟩ [⟨5, 2⟩] ⟨4, 0⟩ []
      rfl (by decide)).2 (by decide) rfl⟩

/-- C8 counterexample: construction does not give an explicit URI
precedence over host and port.  With the URI beginning mongodb+srv (not the
literal mongodb prefix of line 77), host and port win and the URI is not
passed through, and a URI without the prefix and without a host raises
TypeError instead of producing any connection. -/
theorem claim_c8_cex :
    connect_database (some "mongodb+srv://h") (some "h2") (some 1)
      = Except.ok ⟨some (HostArg.hostname "h2"), some 1, true⟩
  ∧ usedPassedUri (connect_database (some "mongodb+srv://h") (some "h2") (some 1)) = false
  ∧ connect_database (some "x") none none = Except.error PyErr.typeError :=
  ⟨rfl, rfl, rfl⟩

/-- C8 (amended): connection parameters resolve with the precedence: a URI
that starts with mongodb:// wins; else a truthy host plus a truthy port;
else, when a host or a URI is present, the host alone is wrapped into the
default URI form carrying an ssl query (raising TypeError when only a
non-prefixed URI and no host is given); else a parameterless default
connection; and every branch that builds a connection requests an encrypted
transport. -/
theorem claim_c8 (uri host : Option String) (port : Option Int) :
    encryptionOfResult (connect_database uri host port) = true
  ∧ (uriPrefixed uri = true →
      connect_database uri host port = Except.ok ⟨uri.map HostArg.passedUri, none, true⟩)
  ∧ (uriPrefixed uri = false → (pyTruthyStr host && pyTruthyInt port) = true →
      connect_database uri host port = Except.ok ⟨host.map HostArg.hostname, port, true⟩)
  ∧ (uriPrefixed uri = false → (pyTruthyStr host && pyTruthyInt port) = false →
      (pyTruthyStr host || pyTruthyStr uri) = true →
      connect_database uri host port =
        (match host with
         | some hst => Except.ok ⟨some (HostArg.wrappedHost hst), none, false⟩
         | none => Except.error PyErr.typeError))
  ∧ (uriPrefixed uri = false → (pyTruthyStr host && pyTruthyInt port) = false →
      (pyTruthyStr host || pyTruthyStr uri) = false →
      connect_database uri host port = Except.ok ⟨none, none, true⟩) := by
  refine ⟨?_, ?_, ?_, ?_, ?_⟩
  · rw [connect_database.eq_def]
    split
    · rfl
    · split
      · rfl
      · split
        · split
          · rfl
          · rfl
        · rfl
  · intro h
    rw [connect_database.eq_def, h]
    rfl
  · intro h h2
    rw [connect_database.eq_def, h, h2]
    rfl
  · intro h h2 h3
    rw [connect_database.eq_def, h, h2, h3]
    rfl
  · intro h h2 h3
    rw [connect_database.eq_def, h, h2, h3]
    rfl

/-- Witness for C8 exercising all four branches at concrete parameters. -/
theorem claim_c8_witness :
    connect_database (some "mongodb://a") (some "h") (some 2)
      = Except.ok ⟨some (HostArg.passedUri "mongodb://a"), none, true⟩
  ∧ connect_database none (some "h") (some 2)
      = Except.ok ⟨some (HostArg.hostname "h"), some 2, true⟩
  ∧ connect_database none (some "h") none
      = Except.ok ⟨some (HostArg.wrappedHost "h"), none, false⟩
  ∧ connect_database none none none = Except.ok ⟨none, none, true⟩ :=
  ⟨(claim_c8 (some "mongodb://a") (some "h") (some 2)).2.1 rfl,
   (claim_c8 none (some "h") (some 2)).2.2.1 rfl rfl,
   (claim_c8 none (some "h") none).2.2.2.1 rfl rfl rfl,
   (claim_c8 none none none).2.2.2.2 rfl rfl rfl⟩

/-- C9: an empty dict or an empty list is falsy, so `insert` returns false
without reading any attribute and without issuing any driver call, in every
state (in particular when an active database and collection exist). -/
theorem claim_c9 (st : MState) (oneRes : InsertOneResult) (manyRes : InsertManyResult) :
    insert st (PyData.dict []) oneRes manyRes = Except.ok (false, [])
  ∧ insert st (PyData.list []) oneRes manyRes = Except.ok (false, []) :=
  ⟨rfl, rfl⟩

/-- C10: with an active database and collection, a one-element list is
routed to the single-document path, which inserts its unique element and
reports success exactly when the driver produced an inserted identifier. -/
theorem claim_c10 (st : MState) (d : Doc) (oneRes : InsertOneResult)
    (manyRes : InsertManyResult) (hc : check_collection st = Except.ok true) :
    insert st (PyData.list [d]) oneRes manyRes
      = Except.ok (oneRes.inserted_id.isSome, [DriverCall.insertOne d]) := by
  rw [insert.eq_def, hc]; rfl

/-- Witness for C10 at a concrete active state and a concrete document. -/
theorem claim_c10_witness :
    insert ⟨[("d", ["c"])], some "d", some "c"⟩ (PyData.list [[("a", PVal.vint 1)]])
        ⟨some (PVal.vint 7)⟩ ⟨[]⟩
      = Except.ok (true, [DriverCall.insertOne [("a", PVal.vint 1)]]) :=
  claim_c10 ⟨[("d", ["c"])], some "d", some "c"⟩ [("a", PVal.vint 1)]
    ⟨some (PVal.vint 7)⟩ ⟨[]⟩ rfl

end Mongobject
